import Mathlib

/-!
# Verification of the ADGM document-compliance core

A shallow embedding, in Lean 4, of the document-classification and
compliance-scoring core of the repository (files `src/doc_processing.py`
and `src/checklist.py`), together with theorems settling the spec's
claims about it.

Modelling conventions:
* Python strings are modelled as `String` (for the fixed table entries
  and report lines) and as `List Char` (for free-form document text);
  Python's substring operator `needle in hay` is the executable
  `occursIn`; `str.lower()` is `Char.toLower` mapped over the text
  (the ASCII lowering relevant to every phrase in the rule tables).
* Python dicts with a fixed key set are Lean structures; the two
  dict shapes returned by fallible functions (a normal result vs an
  `{"status": "error", ...}` result) are the two constructors of an
  inductive type.
* Python floats: every score in the classifier is a sum of the literals
  0.6, 0.4 and 0.2, so scores are carried as exact tenths (`Nat`);
  `round(x, 2)` on the completeness percentage is carried as exact
  hundredths of a percent with round-half-to-even, which coincides with
  the float computation on every value reachable from the rule table
  (denominators 5, 7 and 8 never produce a rounding tie).
* A raised Python exception is `Except.error`; the aggregator's
  `try/except` is the corresponding `match`.
-/

/-! ## Basic string machinery: Python's `in` and `str.lower()` -/

/-- `str.lower()` applied to a Python string modelled as `String`:
the character list of the string, lowercased (ASCII). -/
def lowerS (s : String) : List Char :=
  s.data.map Char.toLower

/-- `str.lower()` applied to free-form document text modelled as `List Char`. -/
def lowerStr (content : List Char) : List Char :=
  content.map Char.toLower

/-- `n` is a prefix of `h` (helper for the substring test). -/
def startsWithCL : List Char → List Char → Bool
  | [], _ => true
  | _ :: _, [] => false
  | p :: ps, c :: cs => p = c && startsWithCL ps cs

/-- Python's substring operator: `occursIn needle hay` models
`needle in hay` for strings. -/
def occursIn (needle : List Char) : List Char → Bool
  | [] => needle.isEmpty
  | c :: t => startsWithCL needle (c :: t) || occursIn needle t

theorem startsWithCL_iff (n : List Char) : ∀ h : List Char,
    startsWithCL n h = true ↔ n <+: h := by
  induction n with
  | nil => intro h; simp [startsWithCL]
  | cons a t ih =>
    intro h
    cases h with
    | nil => simp [startsWithCL]
    | cons b u =>
      simp [startsWithCL, ih, List.cons_prefix_cons]

theorem occursIn_iff (n : List Char) : ∀ h : List Char,
    occursIn n h = true ↔ n <:+: h := by
  intro h
  induction h with
  | nil => simp [occursIn]
  | cons c t ih =>
    simp [occursIn, startsWithCL_iff, ih, List.infix_cons_iff]

theorem occursIn_trans {a b c : List Char}
    (hab : occursIn a b = true) (hbc : occursIn b c = true) :
    occursIn a c = true := by
  rw [occursIn_iff] at *
  exact hab.trans hbc

/-! ## `checklist.py`: the ADGM checklist table and the verifier -/

/-- One entry of `ADGM_CHECKLISTS` (`checklist.py`). -/
structure Checklist where
  required_documents : List String
  description : String
  priority : String
deriving DecidableEq

/-- `ADGM_CHECKLISTS["Company Incorporation"]`. -/
def companyIncorporationChecklist : Checklist :=
  { required_documents :=
      [ "Articles of Association"
      , "Memorandum of Association"
      , "Board Resolution Template"
      , "Shareholder Resolution Template"
      , "UBO Declaration Form"
      , "Register of Members and Directors"
      , "Incorporation Application Form"
      , "Change of Registered Address Notice" ]
  , description := "Complete set of documents required for company formation in ADGM"
  , priority := "High" }

/-- `ADGM_CHECKLISTS["Licensing"]`. -/
def licensingChecklist : Checklist :=
  { required_documents :=
      [ "Licensing Application Form"
      , "Business Plan Template"
      , "Financial Projections"
      , "Risk Assessment Document"
      , "Compliance Manual"
      , "Anti-Money Laundering Policy"
      , "Risk Management Policy" ]
  , description := "Documents needed for obtaining ADGM business license"
  , priority := "High" }

/-- `ADGM_CHECKLISTS["Employment"]`. -/
def employmentChecklist : Checklist :=
  { required_documents :=
      [ "Standard Employment Contract Template"
      , "Confidentiality Agreement"
      , "Non-Compete Agreement"
      , "Employee Handbook"
      , "HR Policies and Procedures" ]
  , description := "Employment-related documents for ADGM companies"
  , priority := "Medium" }

/-- `ADGM_CHECKLISTS["Compliance"]`. -/
def complianceChecklist : Checklist :=
  { required_documents :=
      [ "Compliance Manual"
      , "Risk Management Policy"
      , "Anti-Money Laundering Policy"
      , "Data Protection Policy"
      , "Annual Compliance Report Template" ]
  , description := "Ongoing compliance documentation requirements"
  , priority := "High" }

/-- `ADGM_CHECKLISTS["Corporate Governance"]`. -/
def corporateGovernanceChecklist : Checklist :=
  { required_documents :=
      [ "Board Charter"
      , "Corporate Governance Manual"
      , "Code of Conduct"
      , "Whistleblower Policy"
      , "Board Meeting Minutes Template" ]
  , description := "Corporate governance framework documents"
  , priority := "Medium" }

/-- The `ADGM_CHECKLISTS` dict of `checklist.py`, in declaration order. -/
def ADGM_CHECKLISTS : List (String × Checklist) :=
  [ ("Company Incorporation", companyIncorporationChecklist)
  , ("Licensing", licensingChecklist)
  , ("Employment", employmentChecklist)
  , ("Compliance", complianceChecklist)
  , ("Corporate Governance", corporateGovernanceChecklist) ]

/-- `get_checklist_for_process` (`checklist.py`): dict lookup with a
missing-key default; the empty-dict default is `none`. -/
def get_checklist_for_process (process_name : String) : Option Checklist :=
  (ADGM_CHECKLISTS.find? (fun e => e.1 = process_name)).map Prod.snd

/-- The normal (known-process) result dict of
`verify_checklist_completeness`.  `completeness_percentage` is carried
in exact hundredths of a percent (so `10000` stands for `100.0`). -/
structure ChecklistOk where
  process : String
  required_count : Nat
  uploaded_count : Nat
  missing_count : Nat
  completeness_percentage : Nat
  present_documents : List String
  missing_documents : List String
  status : String
deriving DecidableEq

/-- Result of `verify_checklist_completeness`: either the normal result
dict, or the `{"status": "error", "message": ...}` dict returned for an
unknown process name. -/
inductive ChecklistResult where
  | error (message : String)
  | ok (r : ChecklistOk)
deriving DecidableEq

/-- The `["status"]` field of a checklist result dict (both shapes carry one). -/
def ChecklistResult.statusField : ChecklistResult → String
  | .error _ => "error"
  | .ok r => r.status

/-- The loop of `verify_checklist_completeness` splitting the required
documents into present and missing, preserving required order. -/
def splitRequired (isPresent : String → Bool) : List String → List String × List String
  | [] => ([], [])
  | r :: rest =>
    let pm := splitRequired isPresent rest
    if isPresent r then (r :: pm.1, pm.2) else (pm.1, r :: pm.2)

/-- The matching test of `verify_checklist_completeness`:
`any(req_doc.lower() in uploaded for uploaded in uploaded_doc_names)`. -/
def docIsPresent (uploaded_doc_names : List (List Char)) (req_doc : String) : Bool :=
  uploaded_doc_names.any (fun uploaded => occursIn (lowerS req_doc) uploaded)

/-- Round half to even on the quotient `num / n`, expressed through the
Euclidean quotient and remainder (helper for `roundHalfEvenDiv`). -/
def rheCore (n q r : Nat) : Nat :=
  if 2 * r < n then q
  else if n < 2 * r then q + 1
  else if q % 2 = 0 then q else q + 1

/-- The rational `num / n` rounded to the nearest integer, halves to
even — the rounding Python's builtin `round` performs. -/
def roundHalfEvenDiv (num n : Nat) : Nat :=
  rheCore n (num / n) (num % n)

/-- `round((present_count / required_count) * 100, 2)` of
`verify_checklist_completeness`, carried in exact hundredths of a
percent.  On every value reachable from `ADGM_CHECKLISTS` (denominators
5, 7, 8) this coincides with the source's float computation: no
reachable value lies on a rounding tie. -/
def completenessHundredths (present_count required_count : Nat) : Nat :=
  roundHalfEvenDiv (10000 * present_count) required_count

/-- `verify_checklist_completeness` (`checklist.py`). -/
def verify_checklist_completeness (uploaded_docs : List String)
    (process_name : String) : ChecklistResult :=
  match get_checklist_for_process process_name with
  | none => ChecklistResult.error ("Unknown process: " ++ process_name)
  | some checklist =>
    let required_docs := checklist.required_documents
    let uploaded_doc_names := uploaded_docs.map lowerS
    let pm := splitRequired (docIsPresent uploaded_doc_names) required_docs
    ChecklistResult.ok
      { process := process_name
      , required_count := required_docs.length
      , uploaded_count := pm.1.length
      , missing_count := pm.2.length
      , completeness_percentage := completenessHundredths pm.1.length required_docs.length
      , present_documents := pm.1
      , missing_documents := pm.2
      , status := if pm.2 = [] then "complete" else "incomplete" }

/-! ## Arithmetic lemmas about the rounding and the split loop -/

theorem rheCore_le_succ (n q r : Nat) : rheCore n q r ≤ q + 1 := by
  unfold rheCore
  split_ifs <;> omega

theorem le_rheCore (n q r : Nat) : q ≤ rheCore n q r := by
  unfold rheCore
  split_ifs <;> omega

theorem rheCore_mono {n : Nat} {qa ra qb rb : Nat}
    (hq : qa ≤ qb) (hle : qa = qb → ra ≤ rb) :
    rheCore n qa ra ≤ rheCore n qb rb := by
  rcases Nat.lt_or_ge qa qb with h | h
  · calc rheCore n qa ra ≤ qa + 1 := rheCore_le_succ n qa ra
      _ ≤ qb := h
      _ ≤ rheCore n qb rb := le_rheCore n qb rb
  · have hqq : qa = qb := Nat.le_antisymm hq h
    subst hqq
    have hr : ra ≤ rb := hle rfl
    unfold rheCore
    split_ifs <;> omega

theorem roundHalfEvenDiv_mono {n a b : Nat} (hab : a ≤ b) :
    roundHalfEvenDiv a n ≤ roundHalfEvenDiv b n := by
  unfold roundHalfEvenDiv
  have hda := Nat.div_add_mod a n
  have hdb := Nat.div_add_mod b n
  apply rheCore_mono (Nat.div_le_div_right hab)
  intro hq
  rw [hq] at hda
  omega

theorem roundHalfEvenDiv_mul_self {n : Nat} (hn : 0 < n) (k : Nat) :
    roundHalfEvenDiv (k * n) n = k := by
  unfold roundHalfEvenDiv rheCore
  rw [Nat.mul_div_cancel k hn, Nat.mul_mod_left]
  simp [hn]

theorem completenessHundredths_mono {n p q : Nat} (hpq : p ≤ q) :
    completenessHundredths p n ≤ completenessHundredths q n := by
  unfold completenessHundredths
  exact roundHalfEvenDiv_mono (Nat.mul_le_mul_left 10000 hpq)

theorem completenessHundredths_le {n p : Nat} (hn : 0 < n) (hp : p ≤ n) :
    completenessHundredths p n ≤ 10000 := by
  have h1 : completenessHundredths p n ≤ completenessHundredths n n :=
    completenessHundredths_mono hp
  have h2 : completenessHundredths n n = 10000 := by
    unfold completenessHundredths
    exact roundHalfEvenDiv_mul_self hn 10000
  omega

theorem splitRequired_eq_filter (p : String → Bool) (l : List String) :
    splitRequired p l = (l.filter p, l.filter (fun r => !(p r))) := by
  induction l with
  | nil => rfl
  | cons r rest ih =>
    by_cases h : p r = true <;> simp [splitRequired, ih, List.filter, h]

theorem length_filter_mono {α : Type} {p q : α → Bool} (l : List α)
    (h : ∀ a ∈ l, p a = true → q a = true) :
    (l.filter p).length ≤ (l.filter q).length := by
  induction l with
  | nil => simp
  | cons a t ih =>
    have ht : (t.filter p).length ≤ (t.filter q).length := by
      apply ih
      intro x hx
      exact h x (List.mem_cons_of_mem a hx)
    by_cases hp : p a = true
    · have hq : q a = true := h a (List.mem_cons_self a t) hp
      simp [List.filter, hp, hq]; omega
    · by_cases hq : q a = true <;>
        simp [List.filter, hp, hq] <;> omega

/-- Every checklist the lookup can return has a nonempty
required-documents list. -/
theorem required_documents_pos {process_name : String} {c : Checklist}
    (h : get_checklist_for_process process_name = some c) :
    0 < c.required_documents.length := by
  unfold get_checklist_for_process at h
  rcases hf : ADGM_CHECKLISTS.find? (fun e => e.1 = process_name) with _ | e
  · rw [hf] at h; simp at h
  · rw [hf] at h
    simp at h
    have he : e ∈ ADGM_CHECKLISTS := List.mem_of_find?_eq_some hf
    subst h
    simp [ADGM_CHECKLISTS] at he
    rcases he with h | h | h | h | h <;>
      rw [h] <;> decide

/-! ## `doc_processing.py`: compliance rules and the per-document checks -/

/-- One entry of `self.compliance_rules` (`doc_processing.py`): required
and forbidden phrase lists and a severity.  Rules without a `forbidden`
key carry the empty list. -/
structure ComplianceRule where
  required : List String
  forbidden : List String
  severity : String
deriving DecidableEq

/-- `compliance_rules["jurisdiction"]`. -/
def jurisdiction_rule : ComplianceRule :=
  { required := ["ADGM", "Abu Dhabi Global Market", "ADGM Courts"]
  , forbidden := ["UAE Federal Courts", "Dubai Courts", "Dubai International Financial Centre"]
  , severity := "High" }

/-- `compliance_rules["governing_law"]`. -/
def governing_law_rule : ComplianceRule :=
  { required := ["ADGM", "English Law", "Common Law"]
  , forbidden := ["UAE Federal Law", "Dubai Law"]
  , severity := "High" }

/-- `compliance_rules["signature_blocks"]` (no forbidden list in the source). -/
def signature_blocks_rule : ComplianceRule :=
  { required := ["signature", "witness", "notary"]
  , forbidden := []
  , severity := "Medium" }

/-- `compliance_rules["document_structure"]` (no forbidden list in the source). -/
def document_structure_rule : ComplianceRule :=
  { required := ["clause", "section", "article"]
  , forbidden := []
  , severity := "Low" }

/-- An issue dict produced by the compliance checks.  The source dict
key `"section"` is the field `sectionName` (`section` is a Lean keyword). -/
structure Issue where
  issue : String
  severity : String
  suggestion : String
  regulation : String
  sectionName : String
deriving DecidableEq

/-- The issue dict built in `_check_jurisdiction_compliance` when a
forbidden jurisdiction phrase is found. -/
def incorrectJurisdictionIssue (forbidden : String) : Issue :=
  { issue := "Incorrect jurisdiction: " ++ forbidden
  , severity := jurisdiction_rule.severity
  , suggestion := "Update jurisdiction to ADGM Courts"
  , regulation := "ADGM Companies Regulations 2020, Art. 6"
  , sectionName := "Jurisdiction" }

/-- The issue dict built in `_check_jurisdiction_compliance` when no
required ADGM phrase is present. -/
def missingJurisdictionIssue : Issue :=
  { issue := "Missing ADGM jurisdiction clause"
  , severity := jurisdiction_rule.severity
  , suggestion := "Add jurisdiction clause specifying ADGM Courts"
  , regulation := "ADGM Companies Regulations 2020, Art. 6"
  , sectionName := "Jurisdiction" }

/-- The issue dict built in `_check_governing_law_compliance`. -/
def incorrectGoverningLawIssue (forbidden : String) : Issue :=
  { issue := "Incorrect governing law: " ++ forbidden
  , severity := governing_law_rule.severity
  , suggestion := "Update governing law to ADGM/English Law"
  , regulation := "ADGM Companies Regulations 2020, Art. 7"
  , sectionName := "Governing Law" }

/-- The issue dict built in `_check_signature_compliance`. -/
def missingSignatureIssue : Issue :=
  { issue := "Missing signature section"
  , severity := signature_blocks_rule.severity
  , suggestion := "Add proper signature blocks with witness section"
  , regulation := "ADGM Companies Regulations 2020, Art. 12"
  , sectionName := "Execution" }

/-- The issue dict built in `_check_structure_compliance`. -/
def poorStructureIssue : Issue :=
  { issue := "Poor document structure"
  , severity := document_structure_rule.severity
  , suggestion := "Organize document with proper clauses and sections"
  , regulation := "ADGM Companies Regulations 2020, Art. 10"
  , sectionName := "Document Requirements" }

/-- The Articles-of-Association issue dict of
`_check_document_specific_compliance`. -/
def missingShareCapitalIssue : Issue :=
  { issue := "Missing share capital information"
  , severity := "Medium"
  , suggestion := "Include share capital structure and classes"
  , regulation := "ADGM Companies Regulations 2020, Art. 15"
  , sectionName := "Share Capital" }

/-- The UBO-Declaration issue dict of
`_check_document_specific_compliance`. -/
def missingOwnershipIssue : Issue :=
  { issue := "Missing ownership percentages"
  , severity := "High"
  , suggestion := "Include beneficial ownership percentages"
  , regulation := "ADGM Companies Regulations 2020, Art. 20"
  , sectionName := "Beneficial Ownership" }

/-- The Employment-Contract issue dict of
`_check_document_specific_compliance`. -/
def missingTerminationIssue : Issue :=
  { issue := "Missing termination clauses"
  , severity := "Medium"
  , suggestion := "Include termination and notice provisions"
  , regulation := "ADGM Employment Regulations"
  , sectionName := "Employment Terms" }

/-- The `for forbidden in rule["forbidden"]` loops: the first forbidden
phrase whose lowercasing occurs in the (already lowercased) content. -/
def findForbidden (content : List Char) : List String → Option String
  | [] => none
  | f :: rest =>
    if occursIn (lowerS f) content then some f else findForbidden content rest

/-- `_check_jurisdiction_compliance` (`doc_processing.py`); `content`
is the already-lowercased text, as at its call site. -/
def check_jurisdiction_compliance (content : List Char) : Option Issue :=
  match findForbidden content jurisdiction_rule.forbidden with
  | some f => some (incorrectJurisdictionIssue f)
  | none =>
    if jurisdiction_rule.required.any (fun r => occursIn (lowerS r) content) then
      none
    else
      some missingJurisdictionIssue

/-- `_check_governing_law_compliance` (`doc_processing.py`). -/
def check_governing_law_compliance (content : List Char) : Option Issue :=
  (findForbidden content governing_law_rule.forbidden).map incorrectGoverningLawIssue

/-- `_check_signature_compliance` (`doc_processing.py`). -/
def check_signature_compliance (content : List Char) : Option Issue :=
  if signature_blocks_rule.required.any (fun r => occursIn (lowerS r) content) then
    none
  else
    some missingSignatureIssue

/-- `_check_structure_compliance` (`doc_processing.py`); the
`document_type` parameter is accepted and ignored, as in the source. -/
def check_structure_compliance (content : List Char) (document_type : String) :
    Option Issue :=
  if document_structure_rule.required.any (fun r => occursIn (lowerS r) content) then
    none
  else
    some poorStructureIssue

/-- `_check_document_specific_compliance` (`doc_processing.py`). -/
def check_document_specific_compliance (content : List Char)
    (document_type : String) : List Issue :=
  if document_type = "Articles of Association" then
    if !occursIn "share capital".data content && !occursIn "capital".data content then
      [missingShareCapitalIssue]
    else []
  else if document_type = "UBO Declaration" then
    if !occursIn "percentage".data content && !occursIn "ownership".data content then
      [missingOwnershipIssue]
    else []
  else if document_type = "Employment Contract" then
    if !occursIn "termination".data content && !occursIn "notice".data content then
      [missingTerminationIssue]
    else []
  else []

/-- `issues.append(x)` for an optional per-check result: the sub-list
a check contributes to the issue list of `check_adgm_compliance`. -/
def optList : Option Issue → List Issue
  | none => []
  | some i => [i]

/-- `check_adgm_compliance` (`doc_processing.py`): lowercases the text
and concatenates the results of the five checks in source order. -/
def check_adgm_compliance (content : List Char) (document_type : String) :
    List Issue :=
  let content_lower := lowerStr content
  optList (check_jurisdiction_compliance content_lower) ++
  optList (check_governing_law_compliance content_lower) ++
  optList (check_signature_compliance content_lower) ++
  optList (check_structure_compliance content_lower document_type) ++
  check_document_specific_compliance content_lower document_type

/-! ## `doc_processing.py`: the report aggregator -/

/-- A per-document analysis dict as consumed by
`generate_comprehensive_report`: the `"filename"` and `"issues"` keys
are the only ones it reads. -/
structure DocAnalysis where
  filename : String
  issues : List Issue
deriving DecidableEq

/-- `sum(len(doc.get("issues", [])) for doc in documents)`. -/
def total_issues_found (documents : List DocAnalysis) : Nat :=
  (documents.map (fun d => d.issues.length)).sum

/-- The count of issues of severity `"High"` across all documents. -/
def high_severity_issues_count (documents : List DocAnalysis) : Nat :=
  (documents.map (fun d =>
    (d.issues.filter (fun i => i.severity = "High")).length)).sum

/-- The successful report dict of `generate_comprehensive_report`. -/
structure ReportOk where
  process : String
  compliance_status : String
  checklist_verification : ChecklistResult
  documents_analyzed : Nat
  total_issues_found : Nat
  high_severity_issues : Nat
  document_details : List DocAnalysis
  recommendations : List String
  timestamp : String
deriving DecidableEq

/-- Result of `generate_comprehensive_report`: the report dict, or the
`{"status": "error", "message": ...}` dict its `except` branch returns. -/
inductive Report where
  | error (message : String)
  | ok (r : ReportOk)
deriving DecidableEq

/-- `report.get("status")`: the successful report dict carries no
`"status"` key, the error dict carries `"error"`. -/
def Report.statusGet : Report → Option String
  | .error _ => some "error"
  | .ok _ => none

/-- The `"<filename>: <issue text>"` lines a single document contributes
to the `high_issues` list of `_generate_recommendations`. -/
def highIssueLines (d : DocAnalysis) : List String :=
  (d.issues.filter (fun i => i.severity = "High")).map
    (fun i => d.filename ++ ": " ++ i.issue)

/-- `_generate_recommendations` (`doc_processing.py`).  Reading
`checklist_result["missing_documents"]` on the error-shaped checklist
dict raises `KeyError`, modelled as `Except.error`. -/
def generate_recommendations (documents : List DocAnalysis)
    (checklist_result : ChecklistResult) : Except String (List String) :=
  match checklist_result with
  | ChecklistResult.error _ => Except.error "KeyError: missing_documents"
  | ChecklistResult.ok cr =>
    let recs1 : List String :=
      if cr.missing_documents ≠ [] then
        ["Upload missing documents: " ++ String.intercalate ", " cr.missing_documents]
      else []
    let high_issues := documents.flatMap highIssueLines
    let recs2 := recs1 ++
      (if high_issues ≠ [] then
        "Address high severity issues immediately" :: high_issues.take 3
      else [])
    let recs3 := recs2 ++
      (if cr.completeness_percentage < 8000 then
        ["Complete document package for better compliance"]
      else [])
    Except.ok
      (if recs3 = [] then
        ["Documents appear compliant. Proceed with submission."]
      else recs3)

/-- `generate_comprehensive_report` (`doc_processing.py`): builds the
checklist verification, the issue totals and the status verdict, and
wraps any raised exception into the error-shaped dict. -/
def generate_comprehensive_report (documents : List DocAnalysis)
    (process_name : String) : Report :=
  let uploaded_doc_names := documents.map (fun d => d.filename)
  let checklist_result := verify_checklist_completeness uploaded_doc_names process_name
  let total_issues := total_issues_found documents
  let high_severity := high_severity_issues_count documents
  let compliance_status :=
    if total_issues = 0 ∧ checklist_result.statusField = "complete" then
      "Fully Compliant"
    else if high_severity = 0 then
      "Partially Compliant"
    else
      "Non-Compliant"
  match generate_recommendations documents checklist_result with
  | Except.error m => Report.error m
  | Except.ok recs =>
    Report.ok
      { process := process_name
      , compliance_status := compliance_status
      , checklist_verification := checklist_result
      , documents_analyzed := documents.length
      , total_issues_found := total_issues
      , high_severity_issues := high_severity
      , document_details := documents
      , recommendations := recs
      , timestamp := "2025-08-10T18:30:00" }

/-! ## `doc_processing.py`: the classifier (`detect_document_type`)

Every detection pattern in `self.document_patterns` is a sequence of
literal lowercase words separated by `\s+`, searched with `re.search`
(an unanchored match).  Patterns are modelled as token lists and the
`\s+` token consumes a maximal whitespace run — equivalent to the regex
semantics here because every literal token starts with a non-whitespace
character.  Scores are carried in exact tenths (`6` = the source's
`0.6` content weight, `4` = the `0.4` filename weight, `2` = the `0.2`
keyword bonus, `10` = the `1.0` clamp). -/

/-- One token of a detection pattern: a literal run, or `\s+`. -/
inductive PatTok where
  | lit (s : List Char)
  | ws
deriving DecidableEq

/-- The whitespace class of the regex `\s` (ASCII range). -/
def isSpaceChar (c : Char) : Bool :=
  c = ' ' || c = '\t' || c = '\n' || c = '\r' || c = '\x0b' || c = '\x0c'

/-- Consume a literal token from the front of the text. -/
def dropLit : List Char → List Char → Option (List Char)
  | [], cs => some cs
  | _ :: _, [] => none
  | p :: ps, c :: cs => if p = c then dropLit ps cs else none

/-- Match a token sequence at the front of the text. -/
def matchToksAt : List PatTok → List Char → Bool
  | [], _ => true
  | PatTok.lit s :: ts, cs =>
    match dropLit s cs with
    | none => false
    | some rest => matchToksAt ts rest
  | PatTok.ws :: ts, cs =>
    match cs with
    | [] => false
    | c :: rest => isSpaceChar c && matchToksAt ts (rest.dropWhile isSpaceChar)

/-- `re.search(pattern, text)`: the pattern matches at some position. -/
def searchPat (p : List PatTok) : List Char → Bool
  | [] => matchToksAt p []
  | c :: rest => matchToksAt p (c :: rest) || searchPat p rest

/-- Build the token list of a pattern `w1\s+w2\s+...\s+wk`. -/
def phrasePat : List String → List PatTok
  | [] => []
  | [w] => [PatTok.lit w.data]
  | w :: rest => PatTok.lit w.data :: PatTok.ws :: phrasePat rest

/-- `self.document_patterns` (`doc_processing.py`), in declaration order. -/
def document_patterns : List (String × List (List PatTok)) :=
  [ ("Articles of Association",
      [ phrasePat ["articles", "of", "association"]
      , phrasePat ["aoa"]
      , phrasePat ["company", "constitution"]
      , phrasePat ["internal", "regulations"] ])
  , ("Memorandum of Association",
      [ phrasePat ["memorandum", "of", "association"]
      , phrasePat ["moa"]
      , phrasePat ["company", "objectives"]
      , phrasePat ["business", "purpose"] ])
  , ("UBO Declaration",
      [ phrasePat ["ubo", "declaration"]
      , phrasePat ["ultimate", "beneficial", "owner"]
      , phrasePat ["beneficial", "ownership"]
      , phrasePat ["ownership", "structure"] ])
  , ("Board Resolution",
      [ phrasePat ["board", "resolution"]
      , phrasePat ["directors", "resolution"]
      , phrasePat ["board", "decision"]
      , phrasePat ["directors", "meeting"] ])
  , ("Employment Contract",
      [ phrasePat ["employment", "contract"]
      , phrasePat ["employment", "agreement"]
      , phrasePat ["staff", "contract"]
      , phrasePat ["employee", "terms"] ])
  , ("Compliance Manual",
      [ phrasePat ["compliance", "manual"]
      , phrasePat ["compliance", "policy"]
      , phrasePat ["regulatory", "compliance"]
      , phrasePat ["compliance", "framework"] ]) ]

/-- All detection patterns of the table, in order. -/
def allDetectionPatterns : List (List PatTok) :=
  document_patterns.flatMap (fun e => e.2)

/-- The inner pattern loop of `detect_document_type`: `+0.6` (six
tenths) per pattern matching the content, `+0.4` per pattern matching
the filename, both added independently. -/
def patternScore (patterns : List (List PatTok))
    (content_lower filename_lower : List Char) : Nat :=
  patterns.foldl (fun score p =>
    let s1 := if searchPat p content_lower then score + 6 else score
    if searchPat p filename_lower then s1 + 4 else s1) 0

/-- The `+0.2` additional-keyword bonus of `detect_document_type`. -/
def keywordBonus (doc_type : String) (content_lower : List Char) : Nat :=
  if doc_type = "Articles of Association" then
    if occursIn "clause".data content_lower && occursIn "company".data content_lower
    then 2 else 0
  else if doc_type = "Memorandum of Association" then
    if occursIn "object".data content_lower && occursIn "purpose".data content_lower
    then 2 else 0
  else if doc_type = "UBO Declaration" then
    if occursIn "ownership".data content_lower && occursIn "percentage".data content_lower
    then 2 else 0
  else 0

/-- The best-match fold of `detect_document_type`: starting from
`(None, 0.0)`, a candidate replaces the best only on a strictly higher
score, so the first maximum in table order wins. -/
def selectBest (scored : List (String × Nat)) : Option String × Nat :=
  scored.foldl (fun best e => if best.2 < e.2 then (some e.1, e.2) else best)
    (none, 0)

/-- The category derivation at the end of `detect_document_type`. -/
def categoryFor (best_match : Option String) : String :=
  match best_match with
  | some t =>
    if t = "Articles of Association" ∨ t = "Memorandum of Association" ∨
       t = "UBO Declaration" then "Company Incorporation"
    else if t = "Employment Contract" ∨ t = "Confidentiality Agreement" then
      "Employment"
    else if t = "Compliance Manual" ∨ t = "Risk Management Policy" then
      "Compliance"
    else "General Legal"
  | none => "General Legal"

/-- `detect_document_type` (`doc_processing.py`): returns
`(type, category, confidence)` with the confidence in tenths
(`min(best_score, 1.0)` is `min best.2 10`). -/
def detect_document_type (content filename : List Char) :
    String × String × Nat :=
  let content_lower := lowerStr content
  let filename_lower := lowerStr filename
  let scored := document_patterns.map (fun e =>
    (e.1, patternScore e.2 content_lower filename_lower + keywordBonus e.1 content_lower))
  let best := selectBest scored
  (best.1.getD "Unknown Document", categoryFor best.1, min best.2 10)

/-! ## Theorems about the Checklist Verifier -/

/-- For a known process name the verifier returns the normal result
dict, with present/missing documents the two filters of the required
list under the substring-matching predicate. -/
theorem verify_known (uploads : List String) (process_name : String)
    (c : Checklist) (h : get_checklist_for_process process_name = some c) :
    verify_checklist_completeness uploads process_name = ChecklistResult.ok
      { process := process_name
      , required_count := c.required_documents.length
      , uploaded_count :=
          (c.required_documents.filter (docIsPresent (uploads.map lowerS))).length
      , missing_count :=
          (c.required_documents.filter
            (fun r => !(docIsPresent (uploads.map lowerS) r))).length
      , completeness_percentage :=
          completenessHundredths
            (c.required_documents.filter (docIsPresent (uploads.map lowerS))).length
            c.required_documents.length
      , present_documents :=
          c.required_documents.filter (docIsPresent (uploads.map lowerS))
      , missing_documents :=
          c.required_documents.filter
            (fun r => !(docIsPresent (uploads.map lowerS) r))
      , status :=
          if c.required_documents.filter
              (fun r => !(docIsPresent (uploads.map lowerS) r)) = []
          then "complete" else "incomplete" } := by
  unfold verify_checklist_completeness
  rw [h]
  simp [splitRequired_eq_filter]

theorem filter_length_partition {α : Type} (p q : α → Bool)
    (hpq : ∀ a, q a = !(p a)) (l : List α) :
    (l.filter p).length + (l.filter q).length = l.length := by
  induction l with
  | nil => rfl
  | cons a t ih =>
    by_cases h : p a = true <;> simp [List.filter, h, hpq a] <;> omega

/-- C4: for a known process the Checklist Verifier counts a required
document as present exactly when its lowercased name occurs as a
substring of some lowercased uploaded filename, and computes the
completeness as `round(100 * presentCount / requiredCount, 2)` (carried
in hundredths); and on the empty upload list with process
`"Employment"` it returns 0 present, 5 missing, percentage 0.0 and
status `"incomplete"`. -/
theorem checklist_matching_rule (uploads : List String) (process_name : String)
    (c : Checklist) (h : get_checklist_for_process process_name = some c) :
    (∃ r, verify_checklist_completeness uploads process_name = ChecklistResult.ok r ∧
      r.present_documents = c.required_documents.filter
        (fun req => uploads.any (fun u => occursIn (lowerS req) (lowerS u))) ∧
      r.uploaded_count = r.present_documents.length ∧
      r.missing_count = c.required_documents.length - r.present_documents.length ∧
      r.completeness_percentage =
        completenessHundredths r.present_documents.length c.required_documents.length) ∧
    verify_checklist_completeness [] "Employment" = ChecklistResult.ok
      { process := "Employment"
      , required_count := 5
      , uploaded_count := 0
      , missing_count := 5
      , completeness_percentage := 0
      , present_documents := []
      , missing_documents :=
          [ "Standard Employment Contract Template"
          , "Confidentiality Agreement"
          , "Non-Compete Agreement"
          , "Employee Handbook"
          , "HR Policies and Procedures" ]
      , status := "incomplete" } := by
  have hdoc : docIsPresent (uploads.map lowerS) =
      fun req => uploads.any (fun u => occursIn (lowerS req) (lowerS u)) := by
    funext req
    unfold docIsPresent
    induction uploads with
    | nil => rfl
    | cons u t ih => simp [ih]
  constructor
  · refine ⟨_, verify_known uploads process_name c h, ?_, ?_, ?_, ?_⟩ <;>
      simp only [hdoc]
    all_goals
      have hpart := filter_length_partition
        (fun req => uploads.any (fun u => occursIn (lowerS req) (lowerS u)))
        (fun r => !(uploads.any (fun u => occursIn (lowerS r) (lowerS u))))
        (fun a => rfl) c.required_documents
    all_goals omega
  · decide

/-- Witness for `checklist_matching_rule` at a concrete known process
and a filename that loosely contains a required document name. -/
theorem checklist_matching_rule_witness :
    (∃ r, verify_checklist_completeness
        ["Draft Articles of Association v2.docx"] "Company Incorporation" =
          ChecklistResult.ok r ∧
      r.present_documents = companyIncorporationChecklist.required_documents.filter
        (fun req => ["Draft Articles of Association v2.docx"].any
          (fun u => occursIn (lowerS req) (lowerS u))) ∧
      r.uploaded_count = r.present_documents.length ∧
      r.missing_count = companyIncorporationChecklist.required_documents.length -
        r.present_documents.length ∧
      r.completeness_percentage = completenessHundredths r.present_documents.length
        companyIncorporationChecklist.required_documents.length) ∧
    verify_checklist_completeness [] "Employment" = ChecklistResult.ok
      { process := "Employment"
      , required_count := 5
      , uploaded_count := 0
      , missing_count := 5
      , completeness_percentage := 0
      , present_documents := []
      , missing_documents :=
          [ "Standard Employment Contract Template"
          , "Confidentiality Agreement"
          , "Non-Compete Agreement"
          , "Employee Handbook"
          , "HR Policies and Procedures" ]
      , status := "incomplete" } :=
  checklist_matching_rule ["Draft Articles of Association v2.docx"]
    "Company Incorporation" companyIncorporationChecklist (by decide)

/-- C10: for a known process the checklist result partitions the
required-documents list — present and missing are disjoint, each is an
order-preserving sublist of the required list, the counts sum to the
required count, and the status is `"complete"` exactly when nothing is
missing. -/
theorem checklist_partition (uploads : List String) (process_name : String)
    (c : Checklist) (h : get_checklist_for_process process_name = some c) :
    ∃ r, verify_checklist_completeness uploads process_name = ChecklistResult.ok r ∧
      (∀ d ∈ r.present_documents, d ∉ r.missing_documents) ∧
      r.present_documents.Sublist c.required_documents ∧
      r.missing_documents.Sublist c.required_documents ∧
      r.uploaded_count + r.missing_count = r.required_count ∧
      (r.status = "complete" ↔ r.missing_documents = []) := by
  refine ⟨_, verify_known uploads process_name c h, ?_, ?_, ?_, ?_, ?_⟩
  · intro d hd hd2
    simp only [List.mem_filter] at hd hd2
    rw [hd.2] at hd2
    simp at hd2
  · exact List.filter_sublist c.required_documents
  · exact List.filter_sublist c.required_documents
  · exact filter_length_partition (docIsPresent (uploads.map lowerS))
      (fun r => !(docIsPresent (uploads.map lowerS) r)) (fun a => rfl)
      c.required_documents
  · by_cases hm : c.required_documents.filter
        (fun r => !(docIsPresent (uploads.map lowerS) r)) = [] <;>
      simp [hm]

/-- Witness for `checklist_partition` at a concrete process. -/
theorem checklist_partition_witness :
    ∃ r, verify_checklist_completeness ["Employee Handbook.docx"] "Employment" =
        ChecklistResult.ok r ∧
      (∀ d ∈ r.present_documents, d ∉ r.missing_documents) ∧
      r.present_documents.Sublist employmentChecklist.required_documents ∧
      r.missing_documents.Sublist employmentChecklist.required_documents ∧
      r.uploaded_count + r.missing_count = r.required_count ∧
      (r.status = "complete" ↔ r.missing_documents = []) :=
  checklist_partition ["Employee Handbook.docx"] "Employment"
    employmentChecklist (by decide)

/-- C9: for a known process, if every required document matched by the
first upload list is also matched by the second, the completeness
percentage does not decrease; and the percentage always lies in
[0, 100] (0 to 10000 hundredths). -/
theorem completeness_monotone (u1 u2 : List String) (process_name : String)
    (c : Checklist) (h : get_checklist_for_process process_name = some c)
    (hsub : ∀ req ∈ c.required_documents,
      docIsPresent (u1.map lowerS) req = true →
      docIsPresent (u2.map lowerS) req = true) :
    ∃ r1 r2, verify_checklist_completeness u1 process_name = ChecklistResult.ok r1 ∧
      verify_checklist_completeness u2 process_name = ChecklistResult.ok r2 ∧
      r1.completeness_percentage ≤ r2.completeness_percentage ∧
      r1.completeness_percentage ≤ 10000 ∧ r2.completeness_percentage ≤ 10000 := by
  have hn : 0 < c.required_documents.length := required_documents_pos h
  refine ⟨_, _, verify_known u1 process_name c h, verify_known u2 process_name c h,
    ?_, ?_, ?_⟩
  · exact completenessHundredths_mono (length_filter_mono c.required_documents hsub)
  · exact completenessHundredths_le hn
      (List.length_filter_le (docIsPresent (u1.map lowerS)) c.required_documents)
  · exact completenessHundredths_le hn
      (List.length_filter_le (docIsPresent (u2.map lowerS)) c.required_documents)

/-- Witness for `completeness_monotone` at concrete upload lists. -/
theorem completeness_monotone_witness :
    ∃ r1 r2,
      verify_checklist_completeness ["Compliance Manual.docx"] "Compliance" =
        ChecklistResult.ok r1 ∧
      verify_checklist_completeness
        ["Compliance Manual.docx", "Data Protection Policy v1.docx"] "Compliance" =
        ChecklistResult.ok r2 ∧
      r1.completeness_percentage ≤ r2.completeness_percentage ∧
      r1.completeness_percentage ≤ 10000 ∧ r2.completeness_percentage ≤ 10000 :=
  completeness_monotone ["Compliance Manual.docx"]
    ["Compliance Manual.docx", "Data Protection Policy v1.docx"]
    "Compliance" complianceChecklist (by decide) (by decide)

/-! ## Theorems about error handling and the Report Aggregator -/

/-- C5: for an unknown process name the Checklist Verifier returns the
error-shaped result (status `"error"`, a message naming the process, no
completeness percentage by construction), and the Report Aggregator
returns the error-shaped report dict instead of raising: reading
`missing_documents` off the error dict raises `KeyError`, which the
aggregator's `except` turns into `{"status": "error", "message": ...}`. -/
theorem unknown_process_error (uploads : List String)
    (documents : List DocAnalysis) (process_name : String)
    (h : get_checklist_for_process process_name = none) :
    verify_checklist_completeness uploads process_name =
      ChecklistResult.error ("Unknown process: " ++ process_name) ∧
    (verify_checklist_completeness uploads process_name).statusField = "error" ∧
    ∃ m, generate_comprehensive_report documents process_name = Report.error m ∧
      (generate_comprehensive_report documents process_name).statusGet =
        some "error" := by
  have hv : ∀ us : List String, verify_checklist_completeness us process_name =
      ChecklistResult.error ("Unknown process: " ++ process_name) := by
    intro us
    unfold verify_checklist_completeness
    rw [h]
  refine ⟨hv uploads, ?_, "KeyError: missing_documents", ?_, ?_⟩
  · rw [hv uploads]; rfl
  · simp only [generate_comprehensive_report]
    rw [hv]
    rfl
  · simp only [generate_comprehensive_report]
    rw [hv]
    rfl

/-- Witness for `unknown_process_error` at the spec's Scenario C process
name. -/
theorem unknown_process_error_witness :
    verify_checklist_completeness ["a.docx"] "Nonexistent Process" =
      ChecklistResult.error ("Unknown process: " ++ "Nonexistent Process") ∧
    (verify_checklist_completeness ["a.docx"] "Nonexistent Process").statusField =
      "error" ∧
    ∃ m, generate_comprehensive_report [] "Nonexistent Process" = Report.error m ∧
      (generate_comprehensive_report [] "Nonexistent Process").statusGet =
        some "error" :=
  unknown_process_error ["a.docx"] [] "Nonexistent Process" (by decide)

theorem high_le_total (documents : List DocAnalysis) :
    high_severity_issues_count documents ≤ total_issues_found documents := by
  unfold high_severity_issues_count total_issues_found
  apply List.sum_le_sum
  intro d _
  exact List.length_filter_le _ d.issues

/-- C3: for a known process the aggregator returns a report whose
`compliance_status` follows the strict order — `"Fully Compliant"` iff
no issues and a complete checklist, else `"Partially Compliant"` iff no
High-severity issues, else `"Non-Compliant"`; in particular any
positive High-severity count forces `"Non-Compliant"`. -/
theorem compliance_status_derivation (documents : List DocAnalysis)
    (process_name : String) (c : Checklist)
    (h : get_checklist_for_process process_name = some c) :
    ∃ r, generate_comprehensive_report documents process_name = Report.ok r ∧
      r.compliance_status =
        (if total_issues_found documents = 0 ∧
            (verify_checklist_completeness (documents.map (fun d => d.filename))
              process_name).statusField = "complete"
         then "Fully Compliant"
         else if high_severity_issues_count documents = 0
         then "Partially Compliant"
         else "Non-Compliant") ∧
      (0 < high_severity_issues_count documents →
        r.compliance_status = "Non-Compliant") := by
  have hok := verify_known (documents.map (fun d => d.filename)) process_name c h
  have hrec : ∃ recs, generate_recommendations documents
      (verify_checklist_completeness (documents.map (fun d => d.filename))
        process_name) = Except.ok recs := by
    rw [hok]
    exact ⟨_, rfl⟩
  obtain ⟨recs, hrecs⟩ := hrec
  refine ⟨{ process := process_name
          , compliance_status :=
              if total_issues_found documents = 0 ∧
                  (verify_checklist_completeness
                    (documents.map (fun d => d.filename))
                    process_name).statusField = "complete"
              then "Fully Compliant"
              else if high_severity_issues_count documents = 0
              then "Partially Compliant"
              else "Non-Compliant"
          , checklist_verification := verify_checklist_completeness
              (documents.map (fun d => d.filename)) process_name
          , documents_analyzed := documents.length
          , total_issues_found := total_issues_found documents
          , high_severity_issues := high_severity_issues_count documents
          , document_details := documents
          , recommendations := recs
          , timestamp := "2025-08-10T18:30:00" }, ?_, rfl, ?_⟩
  · simp only [generate_comprehensive_report]
    rw [hrecs]
  · intro hhigh
    have hle := high_le_total documents
    have ht : ¬(total_issues_found documents = 0 ∧
        (verify_checklist_completeness (documents.map (fun d => d.filename))
          process_name).statusField = "complete") := by
      rintro ⟨h0, -⟩
      omega
    have hh : ¬(high_severity_issues_count documents = 0) := by omega
    simp only [if_neg ht, if_neg hh]

/-- A one-document batch carrying a High-severity issue (used by
concrete instantiations below). -/
def sampleHighDocs : List DocAnalysis :=
  [{ filename := "a.docx", issues := [missingOwnershipIssue] }]

/-- Witness for `compliance_status_derivation`: one document carrying a
High-severity issue under a known process. -/
theorem compliance_status_derivation_witness :
    ∃ r, generate_comprehensive_report sampleHighDocs "Employment" = Report.ok r ∧
      r.compliance_status =
        (if total_issues_found sampleHighDocs = 0 ∧
            (verify_checklist_completeness
              (sampleHighDocs.map (fun d => d.filename))
              "Employment").statusField = "complete"
         then "Fully Compliant"
         else if high_severity_issues_count sampleHighDocs = 0
         then "Partially Compliant"
         else "Non-Compliant") ∧
      (0 < high_severity_issues_count sampleHighDocs →
        r.compliance_status = "Non-Compliant") :=
  compliance_status_derivation sampleHighDocs
    "Employment" employmentChecklist (by decide)

/-! ## The recommendation list structure (spec-side description)

The following `spec…` definitions transcribe the spec's four-step
description of the recommendation list, to be compared against the
source-side `generate_recommendations`. -/

/-- Spec step 1: one line listing the missing documents, if any. -/
def specMissingDocsRec (cr : ChecklistOk) : List String :=
  if cr.missing_documents ≠ [] then
    ["Upload missing documents: " ++ String.intercalate ", " cr.missing_documents]
  else []

/-- Spec step 2: if any High-severity issues exist anywhere, a header
line plus at most the first three detail lines, truncated globally
across the whole report (not per document). -/
def specHighIssueRecs (documents : List DocAnalysis) : List String :=
  if documents.flatMap highIssueLines ≠ [] then
    "Address high severity issues immediately" ::
      (documents.flatMap highIssueLines).take 3
  else []

/-- Spec step 3: a generic complete-the-package line below 80%
completeness (8000 hundredths). -/
def specPackageRec (cr : ChecklistOk) : List String :=
  if cr.completeness_percentage < 8000 then
    ["Complete document package for better compliance"]
  else []

/-- Spec step 4: a single affirmative line exactly when the list is
still empty after the preceding steps. -/
def specAffirmRec (documents : List DocAnalysis) (cr : ChecklistOk) : List String :=
  if specMissingDocsRec cr ++ specHighIssueRecs documents ++ specPackageRec cr = [] then
    ["Documents appear compliant. Proceed with submission."]
  else []

theorem append_affirm {α : Type} [DecidableEq α] (X : List α) (aff : α) :
    (if X = [] then [aff] else X) = X ++ (if X = [] then [aff] else []) := by
  by_cases h : X = [] <;> simp [h]

/-- C7: for every document list and every non-error checklist result
the recommendation list is exactly the four spec steps in order, with
the High-severity detail lines truncated to the first three across the
whole report. -/
theorem recommendations_structure (documents : List DocAnalysis) (cr : ChecklistOk) :
    generate_recommendations documents (ChecklistResult.ok cr) =
      Except.ok (specMissingDocsRec cr ++ specHighIssueRecs documents ++
        specPackageRec cr ++ specAffirmRec documents cr) ∧
    ((documents.flatMap highIssueLines).take 3).length ≤ 3 := by
  constructor
  · simp only [generate_recommendations, specMissingDocsRec, specHighIssueRecs,
      specPackageRec, specAffirmRec]
    rw [append_affirm]
  · simp only [List.length_take]
    omega

/-! ## Theorems about the Compliance Evaluator -/

theorem findForbidden_eq_none {content : List Char} {l : List String} :
    findForbidden content l = none ↔
      ∀ f ∈ l, occursIn (lowerS f) content = false := by
  induction l with
  | nil => simp [findForbidden]
  | cons g rest ih =>
    cases hg : occursIn (lowerS g) content <;>
      simp [findForbidden, hg, ih]

theorem findForbidden_some_mem {content : List Char} {l : List String} {f : String}
    (h : findForbidden content l = some f) :
    f ∈ l ∧ occursIn (lowerS f) content = true := by
  induction l with
  | nil => simp [findForbidden] at h
  | cons g rest ih =>
    cases hg : occursIn (lowerS g) content
    · rw [findForbidden, hg] at h
      simp at h
      obtain ⟨h1, h2⟩ := ih h
      exact ⟨List.mem_cons_of_mem g h1, h2⟩
    · rw [findForbidden, hg] at h
      simp at h
      subst h
      exact ⟨List.mem_cons_self g rest, hg⟩

theorem findForbidden_isSome {content : List Char} {l : List String}
    (h : ∃ f ∈ l, occursIn (lowerS f) content = true) :
    ∃ g, findForbidden content l = some g := by
  cases hf : findForbidden content l with
  | some g => exact ⟨g, rfl⟩
  | none =>
    rw [findForbidden_eq_none] at hf
    obtain ⟨f, hfl, hocc⟩ := h
    rw [hf f hfl] at hocc
    cases hocc

theorem gl_countP_zero (cl : List Char) :
    (optList (check_governing_law_compliance cl)).countP
      (fun i => i.sectionName = "Jurisdiction") = 0 := by
  unfold check_governing_law_compliance
  cases hf : findForbidden cl governing_law_rule.forbidden <;>
    simp [optList, incorrectGoverningLawIssue]

theorem sig_countP_zero (cl : List Char) :
    (optList (check_signature_compliance cl)).countP
      (fun i => i.sectionName = "Jurisdiction") = 0 := by
  unfold check_signature_compliance
  split <;> simp [optList, missingSignatureIssue]

theorem st_countP_zero (cl : List Char) (ty : String) :
    (optList (check_structure_compliance cl ty)).countP
      (fun i => i.sectionName = "Jurisdiction") = 0 := by
  unfold check_structure_compliance
  split <;> simp [optList, poorStructureIssue]

theorem specific_countP_zero (cl : List Char) (ty : String) :
    (check_document_specific_compliance cl ty).countP
      (fun i => i.sectionName = "Jurisdiction") = 0 := by
  unfold check_document_specific_compliance
  split_ifs <;>
    simp [missingShareCapitalIssue, missingOwnershipIssue, missingTerminationIssue]

theorem missing_not_mem_gl (cl : List Char) :
    missingJurisdictionIssue ∉ optList (check_governing_law_compliance cl) := by
  intro h
  unfold check_governing_law_compliance at h
  cases hf : findForbidden cl governing_law_rule.forbidden <;> rw [hf] at h <;>
    simp [optList] at h
  have hs := congrArg Issue.suggestion h
  simp [missingJurisdictionIssue, incorrectGoverningLawIssue] at hs

theorem missing_not_mem_sig (cl : List Char) :
    missingJurisdictionIssue ∉ optList (check_signature_compliance cl) := by
  intro h
  unfold check_signature_compliance at h
  split at h <;> simp [optList] at h
  exact absurd (congrArg Issue.suggestion h) (by decide)

theorem missing_not_mem_st (cl : List Char) (ty : String) :
    missingJurisdictionIssue ∉ optList (check_structure_compliance cl ty) := by
  intro h
  unfold check_structure_compliance at h
  split at h <;> simp [optList] at h
  exact absurd (congrArg Issue.suggestion h) (by decide)

theorem missing_not_mem_specific (cl : List Char) (ty : String) :
    missingJurisdictionIssue ∉ check_document_specific_compliance cl ty := by
  intro h
  unfold check_document_specific_compliance at h
  split_ifs at h <;> simp at h <;>
    exact absurd (congrArg Issue.suggestion h) (by decide)

/-- C2: the jurisdiction check emits exactly one High issue naming the
offending forbidden phrase when one is present (and then never the
missing-clause issue for the same document); emits the missing-clause
High issue when neither a forbidden nor a required phrase is present;
and emits nothing when a required phrase is present and no forbidden
one is. -/
theorem jurisdiction_check_behaviour (content : List Char) (document_type : String) :
    ((∃ f ∈ jurisdiction_rule.forbidden,
        occursIn (lowerS f) (lowerStr content) = true) →
      ∃ g ∈ jurisdiction_rule.forbidden,
        occursIn (lowerS g) (lowerStr content) = true ∧
        check_jurisdiction_compliance (lowerStr content) =
          some (incorrectJurisdictionIssue g) ∧
        (incorrectJurisdictionIssue g).severity = "High" ∧
        (incorrectJurisdictionIssue g).issue = "Incorrect jurisdiction: " ++ g ∧
        (check_adgm_compliance content document_type).countP
          (fun i => i.sectionName = "Jurisdiction") = 1 ∧
        missingJurisdictionIssue ∉ check_adgm_compliance content document_type) ∧
    (((∀ f ∈ jurisdiction_rule.forbidden,
        occursIn (lowerS f) (lowerStr content) = false) ∧
      (∀ r ∈ jurisdiction_rule.required,
        occursIn (lowerS r) (lowerStr content) = false)) →
      check_jurisdiction_compliance (lowerStr content) =
        some missingJurisdictionIssue ∧
      missingJurisdictionIssue.severity = "High") ∧
    (((∃ r ∈ jurisdiction_rule.required,
        occursIn (lowerS r) (lowerStr content) = true) ∧
      (∀ f ∈ jurisdiction_rule.forbidden,
        occursIn (lowerS f) (lowerStr content) = false)) →
      check_jurisdiction_compliance (lowerStr content) = none) := by
  refine ⟨?_, ?_, ?_⟩
  · intro hex
    obtain ⟨g, hg⟩ := findForbidden_isSome hex
    obtain ⟨hmem, hocc⟩ := findForbidden_some_mem hg
    have hcj : check_jurisdiction_compliance (lowerStr content) =
        some (incorrectJurisdictionIssue g) := by
      unfold check_jurisdiction_compliance
      rw [hg]
    refine ⟨g, hmem, hocc, hcj, rfl, rfl, ?_, ?_⟩
    · simp only [check_adgm_compliance, List.countP_append, hcj]
      rw [gl_countP_zero, sig_countP_zero, st_countP_zero, specific_countP_zero]
      simp [optList, incorrectJurisdictionIssue]
    · intro hm
      simp only [check_adgm_compliance, List.mem_append, hcj] at hm
      rcases hm with (((h | h) | h) | h) | h
      · simp [optList] at h
        have hs := congrArg Issue.suggestion h
        simp [missingJurisdictionIssue, incorrectJurisdictionIssue] at hs
      · exact missing_not_mem_gl _ h
      · exact missing_not_mem_sig _ h
      · exact missing_not_mem_st _ _ h
      · exact missing_not_mem_specific _ _ h
  · rintro ⟨hforb, hreq⟩
    have hnone : findForbidden (lowerStr content) jurisdiction_rule.forbidden = none :=
      findForbidden_eq_none.mpr hforb
    have hany : jurisdiction_rule.required.any
        (fun r => occursIn (lowerS r) (lowerStr content)) = false := by
      rw [List.any_eq_false]
      intro r hr
      simp [hreq r hr]
    constructor
    · unfold check_jurisdiction_compliance
      rw [hnone, hany]
      rfl
    · rfl
  · rintro ⟨⟨r, hrmem, hrocc⟩, hforb⟩
    have hnone : findForbidden (lowerStr content) jurisdiction_rule.forbidden = none :=
      findForbidden_eq_none.mpr hforb
    have hany : jurisdiction_rule.required.any
        (fun r => occursIn (lowerS r) (lowerStr content)) = true := by
      rw [List.any_eq_true]
      exact ⟨r, hrmem, hrocc⟩
    unfold check_jurisdiction_compliance
    rw [hnone, hany]
    rfl

/-- Witness for `jurisdiction_check_behaviour` on a text containing a
forbidden jurisdiction phrase. -/
theorem jurisdiction_check_behaviour_witness :
    ∃ g ∈ jurisdiction_rule.forbidden,
      occursIn (lowerS g) (lowerStr "Disputes go to the Dubai Courts.".data) = true ∧
      check_jurisdiction_compliance
        (lowerStr "Disputes go to the Dubai Courts.".data) =
        some (incorrectJurisdictionIssue g) ∧
      (incorrectJurisdictionIssue g).severity = "High" ∧
      (incorrectJurisdictionIssue g).issue = "Incorrect jurisdiction: " ++ g ∧
      (check_adgm_compliance "Disputes go to the Dubai Courts.".data
        "Board Resolution").countP
        (fun i => i.sectionName = "Jurisdiction") = 1 ∧
      missingJurisdictionIssue ∉
        check_adgm_compliance "Disputes go to the Dubai Courts.".data
          "Board Resolution" :=
  (jurisdiction_check_behaviour "Disputes go to the Dubai Courts.".data
    "Board Resolution").1 (by decide)

/-- C6: the governing-law check emits an issue iff a forbidden law
phrase occurs in the lowercased content; the issue is High and names
the phrase; mere absence of any valid governing-law statement never
triggers it. -/
theorem governing_law_check_behaviour (content : List Char) :
    ((check_governing_law_compliance (lowerStr content)).isSome = true ↔
      ∃ f ∈ governing_law_rule.forbidden,
        occursIn (lowerS f) (lowerStr content) = true) ∧
    ((∀ f ∈ governing_law_rule.forbidden,
        occursIn (lowerS f) (lowerStr content) = false) →
      check_governing_law_compliance (lowerStr content) = none) ∧
    (∀ i, check_governing_law_compliance (lowerStr content) = some i →
      i.severity = "High" ∧
      ∃ f ∈ governing_law_rule.forbidden,
        occursIn (lowerS f) (lowerStr content) = true ∧
        i.issue = "Incorrect governing law: " ++ f) := by
  refine ⟨⟨?_, ?_⟩, ?_, ?_⟩
  · intro h
    unfold check_governing_law_compliance at h
    cases hf : findForbidden (lowerStr content) governing_law_rule.forbidden
    · rw [hf] at h
      simp at h
    · obtain ⟨hm, ho⟩ := findForbidden_some_mem hf
      exact ⟨_, hm, ho⟩
  · intro hex
    obtain ⟨g, hg⟩ := findForbidden_isSome hex
    unfold check_governing_law_compliance
    rw [hg]
    rfl
  · intro hall
    unfold check_governing_law_compliance
    rw [findForbidden_eq_none.mpr hall]
    rfl
  · intro i hi
    unfold check_governing_law_compliance at hi
    cases hf : findForbidden (lowerStr content) governing_law_rule.forbidden
    · rw [hf] at hi
      simp at hi
    · rw [hf] at hi
      simp at hi
      obtain ⟨hm, ho⟩ := findForbidden_some_mem hf
      rw [← hi]
      exact ⟨rfl, _, hm, ho, rfl⟩

/-- Witness for `governing_law_check_behaviour`: an issue on a text
naming a forbidden law, none on a text with no law statement at all. -/
theorem governing_law_check_behaviour_witness :
    (check_governing_law_compliance
      (lowerStr "Governed by UAE Federal Law.".data)).isSome = true ∧
    check_governing_law_compliance (lowerStr "no law named here".data) = none :=
  ⟨(governing_law_check_behaviour "Governed by UAE Federal Law.".data).1.mpr
      (by decide),
   (governing_law_check_behaviour "no law named here".data).2.1 (by decide)⟩

/-- C8 (Scenario A): a text whose lowercased content contains
"uae federal courts", "signature" and "clause" but not "capital" (and
no forbidden law phrase), checked as an Articles of Association,
produces exactly the jurisdiction issue (High, naming UAE Federal
Courts) followed by the missing-share-capital issue (Medium); the
governing-law, signature and structure checks pass. -/
theorem scenario_a_compliance (content : List Char)
    (h1 : occursIn "uae federal courts".data (lowerStr content) = true)
    (h2 : occursIn "signature".data (lowerStr content) = true)
    (h3 : occursIn "clause".data (lowerStr content) = true)
    (h4 : occursIn "capital".data (lowerStr content) = false)
    (h5 : occursIn "uae federal law".data (lowerStr content) = false)
    (h6 : occursIn "dubai law".data (lowerStr content) = false) :
    check_adgm_compliance content "Articles of Association" =
      [incorrectJurisdictionIssue "UAE Federal Courts", missingShareCapitalIssue] ∧
    (incorrectJurisdictionIssue "UAE Federal Courts").issue =
      "Incorrect jurisdiction: UAE Federal Courts" ∧
    (incorrectJurisdictionIssue "UAE Federal Courts").severity = "High" ∧
    missingShareCapitalIssue.severity = "Medium" := by
  have e1 : occursIn (lowerS "UAE Federal Courts") (lowerStr content) = true := by
    rw [show lowerS "UAE Federal Courts" = "uae federal courts".data from by decide]
    exact h1
  have hjur : check_jurisdiction_compliance (lowerStr content) =
      some (incorrectJurisdictionIssue "UAE Federal Courts") := by
    unfold check_jurisdiction_compliance
    simp [jurisdiction_rule, findForbidden, e1]
  have hgl : check_governing_law_compliance (lowerStr content) = none := by
    have hnone : findForbidden (lowerStr content) governing_law_rule.forbidden =
        none := by
      rw [findForbidden_eq_none]
      intro f hf
      simp [governing_law_rule] at hf
      rcases hf with rfl | rfl
      · rw [show lowerS "UAE Federal Law" = "uae federal law".data from by decide]
        exact h5
      · rw [show lowerS "Dubai Law" = "dubai law".data from by decide]
        exact h6
    unfold check_governing_law_compliance
    rw [hnone]
    rfl
  have hsig : check_signature_compliance (lowerStr content) = none := by
    have hany : signature_blocks_rule.required.any
        (fun r => occursIn (lowerS r) (lowerStr content)) = true := by
      apply List.any_eq_true.mpr
      refine ⟨"signature", by decide, ?_⟩
      rw [show lowerS "signature" = "signature".data from by decide]
      exact h2
    unfold check_signature_compliance
    simp [hany]
  have hst : check_structure_compliance (lowerStr content)
      "Articles of Association" = none := by
    have hany : document_structure_rule.required.any
        (fun r => occursIn (lowerS r) (lowerStr content)) = true := by
      apply List.any_eq_true.mpr
      refine ⟨"clause", by decide, ?_⟩
      rw [show lowerS "clause" = "clause".data from by decide]
      exact h3
    unfold check_structure_compliance
    simp [hany]
  have hsc : occursIn "share capital".data (lowerStr content) = false := by
    cases hcase : occursIn "share capital".data (lowerStr content)
    · rfl
    · have hcap := occursIn_trans
        (a := "capital".data) (b := "share capital".data) (by decide) hcase
      rw [h4] at hcap
      cases hcap
  have hspec : check_document_specific_compliance (lowerStr content)
      "Articles of Association" = [missingShareCapitalIssue] := by
    unfold check_document_specific_compliance
    simp [hsc, h4]
  refine ⟨?_, rfl, rfl, rfl⟩
  simp only [check_adgm_compliance, hjur, hgl, hsig, hst, hspec]
  rfl

/-- Witness for `scenario_a_compliance` at a concrete Scenario-A text. -/
theorem scenario_a_compliance_witness :
    check_adgm_compliance "uae federal courts signature clause".data
      "Articles of Association" =
      [incorrectJurisdictionIssue "UAE Federal Courts", missingShareCapitalIssue] ∧
    (incorrectJurisdictionIssue "UAE Federal Courts").issue =
      "Incorrect jurisdiction: UAE Federal Courts" ∧
    (incorrectJurisdictionIssue "UAE Federal Courts").severity = "High" ∧
    missingShareCapitalIssue.severity = "Medium" :=
  scenario_a_compliance "uae federal courts signature clause".data
    (by decide) (by decide) (by decide) (by decide) (by decide) (by decide)

/-! ## Theorems about the Classifier -/

theorem patternScore_zero {cl fl : List Char} :
    ∀ (ps : List (List PatTok)),
      (∀ p ∈ ps, searchPat p cl = false ∧ searchPat p fl = false) →
      patternScore ps cl fl = 0 := by
  have gen : ∀ (ps : List (List PatTok)),
      (∀ p ∈ ps, searchPat p cl = false ∧ searchPat p fl = false) →
      ∀ acc : Nat, ps.foldl (fun score p =>
        let s1 := if searchPat p cl then score + 6 else score
        if searchPat p fl then s1 + 4 else s1) acc = acc := by
    intro ps
    induction ps with
    | nil => intro _ acc; rfl
    | cons p t ih =>
      intro h acc
      obtain ⟨h1, h2⟩ := h p (List.mem_cons_self p t)
      simp only [List.foldl_cons, h1, h2]
      exact ih (fun q hq => h q (List.mem_cons_of_mem p hq)) acc
  intro ps h
  unfold patternScore
  exact gen ps h 0

theorem keywordBonus_zero {cl : List Char}
    (hb1 : ¬(occursIn "clause".data cl = true ∧ occursIn "company".data cl = true))
    (hb2 : ¬(occursIn "object".data cl = true ∧ occursIn "purpose".data cl = true))
    (hb3 : ¬(occursIn "ownership".data cl = true ∧
      occursIn "percentage".data cl = true))
    (t : String) : keywordBonus t cl = 0 := by
  unfold keywordBonus
  split_ifs <;> simp_all [Bool.and_eq_true]

theorem selectBest_zero :
    ∀ (scored : List (String × Nat)), (∀ e ∈ scored, e.2 = 0) →
      selectBest scored = (none, 0) := by
  have gen : ∀ (l : List (String × Nat)), (∀ e ∈ l, e.2 = 0) →
      l.foldl (fun best e => if best.2 < e.2 then (some e.1, e.2) else best)
        ((none : Option String), 0) = (none, 0) := by
    intro l
    induction l with
    | nil => intro _; rfl
    | cons e t ih =>
      intro h
      have he : e.2 = 0 := h e (List.mem_cons_self e t)
      simp only [List.foldl_cons, he]
      exact ih (fun q hq => h q (List.mem_cons_of_mem e hq))
  intro scored h
  unfold selectBest
  exact gen scored h

/-- C1 (amended): if no detection pattern matches the lowercased
content nor the lowercased filename, **and** none of the three
secondary-keyword bonus pairs co-occurs in the lowercased content, the
classifier returns exactly ("Unknown Document", "General Legal", 0.0).
(The bonus-pair condition is forced by `detect_unknown_counterexample`:
the source adds its `+0.2` keyword bonus even when no pattern
matches.) -/
theorem detect_unknown (content filename : List Char)
    (hpat : ∀ p ∈ allDetectionPatterns,
      searchPat p (lowerStr content) = false ∧
      searchPat p (lowerStr filename) = false)
    (hb1 : ¬(occursIn "clause".data (lowerStr content) = true ∧
      occursIn "company".data (lowerStr content) = true))
    (hb2 : ¬(occursIn "object".data (lowerStr content) = true ∧
      occursIn "purpose".data (lowerStr content) = true))
    (hb3 : ¬(occursIn "ownership".data (lowerStr content) = true ∧
      occursIn "percentage".data (lowerStr content) = true)) :
    detect_document_type content filename =
      ("Unknown Document", "General Legal", 0) := by
  have hscored : ∀ e ∈ document_patterns.map (fun e =>
      (e.1, patternScore e.2 (lowerStr content) (lowerStr filename) +
        keywordBonus e.1 (lowerStr content))), e.2 = 0 := by
    intro e he
    obtain ⟨a, ha, rfl⟩ := List.mem_map.mp he
    have hps : patternScore a.2 (lowerStr content) (lowerStr filename) = 0 := by
      apply patternScore_zero
      intro p hp
      exact hpat p (List.mem_flatMap.mpr ⟨a, ha, hp⟩)
    have hkb : keywordBonus a.1 (lowerStr content) = 0 :=
      keywordBonus_zero hb1 hb2 hb3 a.1
    simp [hps, hkb]
  simp only [detect_document_type]
  rw [selectBest_zero _ hscored]
  rfl

/-- C1 counterexample: the content "clause company" matches no
detection pattern (nor does the filename), yet the classifier does not
return ("Unknown Document", "General Legal", 0.0) — the keyword bonus
alone selects "Articles of Association" with confidence 0.2. -/
theorem detect_unknown_counterexample :
    (∀ p ∈ allDetectionPatterns,
      searchPat p (lowerStr "clause company".data) = false ∧
      searchPat p (lowerStr "file1.docx".data) = false) ∧
    detect_document_type "clause company".data "file1.docx".data ≠
      ("Unknown Document", "General Legal", 0) ∧
    detect_document_type "clause company".data "file1.docx".data =
      ("Articles of Association", "Company Incorporation", 2) := by
  refine ⟨by decide, by decide, by decide⟩

/-- Witness for `detect_unknown` at a concrete text with no pattern
match and no bonus pair. -/
theorem detect_unknown_witness :
    detect_document_type "hello there".data "f.docx".data =
      ("Unknown Document", "General Legal", 0) :=
  detect_unknown "hello there".data "f.docx".data
    (by decide) (by decide) (by decide) (by decide)
